import Mathlib

/-!
Verification of the signalerr conversational request bot.

Shallow embedding of the core data model and operations:
  - `db/models.py`   : enums, `MediaRequest`, `User.can_make_request`
  - `db/crud.py`     : `MediaRequestCRUD.update_request_status`, `create_request`,
                       `get_pending_requests` (folded into the sweep step)
  - `bot/bot.py`     : `map_overseerr_status`, `check_request_statuses` (per-request
                       body), `check_single_request`, `schedule_request_check`
  - `bot/message_handler.py` : `parse_command`, `handle_message` routing,
                       `handle_natural_request`, `process_media_request`,
                       `determine_seasons_to_request`
  - `api/overseerr.py` : `request_movie`, `request_tv_show`

Machine time is modelled as minutes since an epoch (`Nat`); a calendar day is
1440 minutes.  External collaborators (Overseerr HTTP, the Signal transport,
the SQL store) are modelled as explicit oracle inputs, so every definition is
executable.
-/

namespace Signalerr

/-- Request status enum, `db/models.py` `RequestStatus`. -/
inductive RequestStatus
  | pending
  | approved
  | downloading
  | completed
  | failed
  | declined
deriving DecidableEq, Repr

/-- Media type enum, `db/models.py` `MediaType`. -/
inductive MediaType
  | movie
  | tv
deriving DecidableEq, Repr

/-- Verbosity enum, `db/models.py` `VerbosityLevel`. -/
inductive VerbosityLevel
  | verbose
  | simple
  | casual
deriving DecidableEq, Repr

/-- One row of `media_requests`, `db/models.py` `MediaRequest`.  Timestamps are
minutes since the epoch. -/
structure MediaRequest where
  id : Nat
  user_id : Nat
  overseerr_request_id : Option Nat := none
  media_type : MediaType
  media_id : Nat := 0
  title : String := ""
  year : Option Nat := none
  status : RequestStatus := RequestStatus.pending
  seasons_requested : Option (List Nat) := none
  created_at : Nat
  updated_at : Nat
  completed_at : Option Nat := none
  error_message : Option String := none
deriving DecidableEq, Repr

/-- One row of `users`, `db/models.py` `User` (the fields the core reads). -/
structure UserRec where
  id : Nat
  phone_number : String
  is_admin : Bool := false
  is_active : Bool := true
  verbosity_level : VerbosityLevel := VerbosityLevel.simple
  auto_notifications : Bool := true
  daily_request_limit : Nat := 10
deriving DecidableEq, Repr

/-- Creation of a fresh request, `db/crud.py` `MediaRequestCRUD.create_request`:
status defaults to pending, no Overseerr id, no error, no completion time.
Python's `if seasons:` treats `None` and the empty list alike, so only a
non-empty season list is stored. -/
def create_request (id user_id : Nat) (media_type : MediaType) (media_id : Nat)
    (title : String) (year : Option Nat) (seasons : Option (List Nat)) (now : Nat) :
    MediaRequest :=
  { id := id
    user_id := user_id
    media_type := media_type
    media_id := media_id
    title := title
    year := year
    seasons_requested :=
      match seasons with
      | some (s :: rest) => some (s :: rest)
      | _ => none
    created_at := now
    updated_at := now }

/-- Status update, `db/crud.py` `MediaRequestCRUD.update_request_status`
(lines 138-163).  Python truthiness: an Overseerr id of `0` and an empty
error string are not stored; `completed_at` is stamped exactly when the new
status is `completed`.  No forward-only check is performed. -/
def update_request_status (r : MediaRequest) (status : RequestStatus)
    (overseerr_request_id : Option Nat) (error_message : Option String)
    (now : Nat) : MediaRequest :=
  { r with
    status := status
    updated_at := now
    overseerr_request_id :=
      match overseerr_request_id with
      | some oid => if oid ≠ 0 then some oid else r.overseerr_request_id
      | none => r.overseerr_request_id
    error_message :=
      match error_message with
      | some msg => if msg ≠ "" then some msg else r.error_message
      | none => r.error_message
    completed_at :=
      if status = RequestStatus.completed then some now else r.completed_at }

/-- Overseerr coarse status code mapping, `bot/bot.py` `map_overseerr_status`:
`dict.get` with default `'pending'` for every unrecognized code. -/
def map_overseerr_status (overseerr_status : Int) : RequestStatus :=
  if overseerr_status = 1 then RequestStatus.pending
  else if overseerr_status = 2 then RequestStatus.approved
  else if overseerr_status = 3 then RequestStatus.declined
  else if overseerr_status = 4 then RequestStatus.downloading
  else if overseerr_status = 5 then RequestStatus.completed
  else RequestStatus.pending

/-- Membership in `MediaRequestCRUD.get_pending_requests` (`db/crud.py`
lines 130-135): the sweep enumerates only pending/approved/downloading rows. -/
def in_pending_query (s : RequestStatus) : Bool :=
  s = RequestStatus.pending ∨ s = RequestStatus.approved ∨ s = RequestStatus.downloading

/-- Terminal statuses of the spec's lifecycle graph. -/
def is_terminal (s : RequestStatus) : Bool :=
  s = RequestStatus.completed ∨ s = RequestStatus.failed ∨ s = RequestStatus.declined

/-- Outcome of one status check on one request: the updated row, whether a
status-update notification went to the owner, and whether a follow-up
one-shot check was scheduled. -/
structure CheckOutcome where
  request : MediaRequest
  notification_sent : Bool
  rescheduled : Bool
deriving DecidableEq, Repr

/-- Effect of one recurring sweep on one request, `bot/bot.py`
`check_request_statuses` (lines 161-195) specialized to a single row:
the row is touched only if it is in the `get_pending_requests` result;
a still-pending row younger than the grace period is skipped; otherwise,
with an Overseerr id and a response, the mapped status is written whenever
it differs, and the owner is notified only when found and auto-notifications
are on.  `resp = none` models a falsy/absent Overseerr response. -/
def check_request_statuses_one (timeout_minutes now : Nat) (r : MediaRequest)
    (resp : Option Int) (user : Option UserRec) : CheckOutcome :=
  if in_pending_query r.status = false then ⟨r, false, false⟩
  else if r.status = RequestStatus.pending ∧ now - r.created_at < timeout_minutes then
    ⟨r, false, false⟩
  else
    match r.overseerr_request_id with
    | some oid =>
      if oid ≠ 0 then
        match resp with
        | some code =>
          let new_status := map_overseerr_status code
          if new_status = r.status then ⟨r, false, false⟩
          else
            ⟨update_request_status r new_status none none now,
             (match user with
              | some u => u.auto_notifications
              | none => false),
             false⟩
        | none => ⟨r, false, false⟩
      else ⟨r, false, false⟩
    | none => ⟨r, false, false⟩

/-- One-shot check, `bot/bot.py` `check_single_request` (lines 326-353):
no pending-list filter and no grace skip; on a changed status the owner is
notified whenever the user row is found, with no auto-notifications test;
a follow-up check is scheduled whenever the mapped status is approved or
downloading, whether or not it changed. -/
def check_single_request (now : Nat) (r : MediaRequest) (resp : Option Int)
    (user : Option UserRec) : CheckOutcome :=
  match r.overseerr_request_id with
  | some oid =>
    if oid ≠ 0 then
      match resp with
      | some code =>
        let new_status := map_overseerr_status code
        let r2 :=
          if new_status = r.status then r
          else update_request_status r new_status none none now
        ⟨r2,
         (if new_status = r.status then false else user.isSome),
         (new_status = RequestStatus.approved ∨ new_status = RequestStatus.downloading)⟩
      | none => ⟨r, false, false⟩
    else ⟨r, false, false⟩
  | none => ⟨r, false, false⟩

/-- One status-affecting operation on a request: the two outcomes of
`process_media_request`'s submission step (`bot/message_handler.py`
lines 249-267) and the two polling paths of `bot/bot.py`. -/
inductive LifecycleOp
  | submitOk (overseerr_id : Nat) (now : Nat)
  | submitFail (error : String) (now : Nat)
  | sweepPoll (resp : Option Int) (timeout_minutes : Nat) (now : Nat)
  | singlePoll (resp : Option Int) (now : Nat)
deriving DecidableEq, Repr

/-- Whether an operation is a failed submission. -/
def is_submit_fail : LifecycleOp → Bool
  | LifecycleOp.submitFail _ _ => true
  | _ => false

/-- Apply one lifecycle operation to a request row. -/
def apply_op (r : MediaRequest) (op : LifecycleOp) : MediaRequest :=
  match op with
  | LifecycleOp.submitOk oid now =>
    update_request_status r RequestStatus.approved (some oid) none now
  | LifecycleOp.submitFail e now =>
    update_request_status r RequestStatus.failed none (some e) now
  | LifecycleOp.sweepPoll resp tm now =>
    (check_request_statuses_one tm now r resp none).request
  | LifecycleOp.singlePoll resp now =>
    (check_single_request now r resp none).request

/-- Run a sequence of lifecycle operations. -/
def run_ops (r : MediaRequest) (ops : List LifecycleOp) : MediaRequest :=
  ops.foldl apply_op r

/-- Modelled from the spec: the status graph of section 4.3
(`pending → {approved, declined, failed}`, `approved → downloading →
completed`).  `forward_reachable a b` holds when a path of zero or more
graph edges leads from `a` to `b`. -/
def forward_reachable (a b : RequestStatus) : Bool :=
  a = b ||
    match a, b with
    | RequestStatus.pending, _ => true
    | RequestStatus.approved, RequestStatus.downloading => true
    | RequestStatus.approved, RequestStatus.completed => true
    | RequestStatus.downloading, RequestStatus.completed => true
    | _, _ => false

/-- APScheduler job store as seen by the bot: a list of (job id, run time)
pairs, one entry per live job. -/
structure SchedulerState where
  jobs : List (String × Nat)
deriving DecidableEq, Repr

/-- `scheduler.add_job(..., replace_existing=True)`: a job with the same id is
replaced by the new one (new run time); otherwise the job is appended. -/
def add_job_replace_existing (s : SchedulerState) (job_id : String)
    (run_time : Nat) : SchedulerState :=
  if s.jobs.any (fun j => j.1 == job_id) then
    { jobs := s.jobs.map (fun j => if j.1 == job_id then (job_id, run_time) else j) }
  else
    { jobs := s.jobs ++ [(job_id, run_time)] }

/-- Job id used by `schedule_request_check`: `f'check_request_{request_id}'`. -/
def check_request_job_id (request_id : Nat) : String :=
  "check_request_" ++ toString request_id

/-- One-shot check scheduling, `bot/bot.py` `schedule_request_check`
(lines 308-324): run time is now plus the delay, job id is derived from the
request id, `replace_existing=True`. -/
def schedule_request_check (s : SchedulerState) (request_id : Nat)
    (delay_minutes : Nat) (now : Nat) : SchedulerState :=
  add_job_replace_existing s (check_request_job_id request_id) (now + delay_minutes)

/-- Pending one-shot checks of a given request id. -/
def pending_checks_for (s : SchedulerState) (request_id : Nat) :
    List (String × Nat) :=
  s.jobs.filter (fun j => j.1 == check_request_job_id request_id)

/-- Minutes per calendar day; timestamps are minutes since the epoch. -/
def minutes_per_day : Nat := 1440

/-- Calendar date (day index) of a timestamp, the `date()` /
`func.date(created_at)` projection used by the quota check. -/
def dateOf (t : Nat) : Nat := t / minutes_per_day

/-- A stored request row as the quota query sees it: owner and creation time. -/
structure StoredRequest where
  user_id : Nat
  created_at : Nat
deriving DecidableEq, Repr

/-- `db/models.py` `User.get_daily_request_count` (lines 43-49): count of
stored requests whose owner matches and whose creation date is today's
server-time date. -/
def get_daily_request_count (rows : List StoredRequest) (uid : Nat) (now : Nat) :
    Nat :=
  (rows.filter (fun r => r.user_id == uid && dateOf r.created_at == dateOf now)).length

/-- `db/models.py` `User.can_make_request` (lines 51-53). -/
def can_make_request (rows : List StoredRequest) (u : UserRec) (now : Nat) :
    Bool :=
  get_daily_request_count rows u.id now < u.daily_request_limit

/-- Outcome of the fulfillment service's POST `/request` call, as the code
distinguishes it: a JSON reply carrying an optional id, an HTTP error with a
status code, or any other exception with its text. -/
inductive SubmitResponse
  | success (request_id : Option Nat)
  | httpError (status_code : Nat)
  | otherError (detail : String)
deriving DecidableEq, Repr

/-- `api/overseerr.py` `OverseerrAPI.request_movie` (lines 66-93): returns
(success, overseerr request id, error message); HTTP 409 is reported with the
distinguished already-requested text, any other failure with a generic text. -/
def request_movie (movie_id : Nat) (resp : SubmitResponse) :
    Bool × Option Nat × Option String :=
  match resp with
  | SubmitResponse.success rid => (true, rid, none)
  | SubmitResponse.httpError code =>
    if code = 409 then
      (false, none, some "This movie has already been requested")
    else
      (false, none, some ("Failed to request movie: HTTP error " ++ toString code))
  | SubmitResponse.otherError d =>
    (false, none, some ("Failed to request movie " ++ toString movie_id ++ ": " ++ d))

/-- `api/overseerr.py` `OverseerrAPI.request_tv_show` (lines 95-125); the
season list is attached to the payload only when non-empty (Python `if
seasons:`), which the model keeps as data already folded into the oracle. -/
def request_tv_show (tv_id : Nat) (resp : SubmitResponse) :
    Bool × Option Nat × Option String :=
  match resp with
  | SubmitResponse.success rid => (true, rid, none)
  | SubmitResponse.httpError code =>
    if code = 409 then
      (false, none, some "This TV show has already been requested")
    else
      (false, none, some ("Failed to request TV show: HTTP error " ++ toString code))
  | SubmitResponse.otherError d =>
    (false, none, some ("Failed to request TV show " ++ toString tv_id ++ ": " ++ d))

/-- The distinguished already-requested text of each submission operation's
HTTP 409 branch (`api/overseerr.py` lines 83-85 and 114-117). -/
def conflict_message : MediaType → String
  | MediaType.movie => "This movie has already been requested"
  | MediaType.tv => "This TV show has already been requested"

/-- Python `\s` / `str.split()` whitespace over ASCII. -/
def isPySpace (c : Char) : Bool :=
  c = ' ' || c = '\t' || c = '\n' || c = '\x0d' || c = '\x0b' || c = '\x0c'

/-- Strip a literal character sequence from the front; `none` when it is not
a prefix. -/
def stripPrefixChars : List Char → List Char → Option (List Char)
  | [], l => some l
  | _ :: _, [] => none
  | p :: ps, c :: cs => if p = c then stripPrefixChars ps cs else none

/-- Whether `sub` occurs as a contiguous substring (Python `sub in s`). -/
def containsSub (sub : List Char) : List Char → Bool
  | [] => sub.isEmpty
  | c :: rest => (stripPrefixChars sub (c :: rest)).isSome || containsSub sub rest

/-- Greedy `\s*`: drop leading whitespace. -/
def skipSpaces : List Char → List Char
  | [] => []
  | c :: rest => if isPySpace c then skipSpaces rest else c :: rest

/-- Greedy `\d+` split: the leading digit run and the remainder. -/
def takeDigits : List Char → List Char × List Char
  | [] => ([], [])
  | c :: rest =>
    if c.isDigit then
      let (ds, r) := takeDigits rest
      (c :: ds, r)
    else ([], c :: rest)

/-- Decimal value of a digit run (`int` applied to a `\d+` capture). -/
def digitsToNat (ds : List Char) : Nat :=
  ds.foldl (fun n c => n * 10 + (c.toNat - 48)) 0

/-- Match `\s*(\d+)` and return the captured number and the remainder. -/
def match_spaces_digits (l : List Char) : Option (Nat × List Char) :=
  let l1 := skipSpaces l
  let (ds, rest) := takeDigits l1
  if ds.isEmpty then none else some (digitsToNat ds, rest)

/-- Match the optional group `(?:\s*[-–]\s*(\d+))?`: the second captured
number when the whole group matches, else nothing consumed. -/
def match_dash_digits (l : List Char) : Option Nat :=
  match skipSpaces l with
  | c :: rest =>
    if c = '-' || c = '–' then
      match match_spaces_digits rest with
      | some (n, _) => some n
      | none => none
    else none
  | [] => none

/-- Match `season[s]?\s*(\d+)(?:\s*[-–]\s*(\d+))?` anchored at the front of
`l`, mirroring the regex's greedy/backtracking order: the optional `s` is
consumed first and released when the rest of the pattern then fails. -/
def match_season_at (l : List Char) : Option (Nat × Option Nat) :=
  match stripPrefixChars "season".toList l with
  | none => none
  | some rest =>
    let attempt := fun (l2 : List Char) =>
      match match_spaces_digits l2 with
      | none => none
      | some (n1, rest2) => some (n1, match_dash_digits rest2)
    match rest with
    | 's' :: rest2 =>
      match attempt rest2 with
      | some r => some r
      | none => attempt rest
    | _ => attempt rest

/-- `re.search` of the season pattern: leftmost starting position wins. -/
def search_season : List Char → Option (Nat × Option Nat)
  | [] => none
  | c :: rest =>
    match match_season_at (c :: rest) with
    | some r => some r
    | none => search_season rest

/-- Lower-cased character list of a string (Python `str.lower()` on ASCII). -/
def pyLowerChars (s : String) : List Char :=
  s.toList.map Char.toLower

/-- The `'latest' / 'recent' / 'new' / 'current'` keyword list of
`determine_seasons_to_request`. -/
def latest_keywords : List String := ["latest", "recent", "new", "current"]

/-- Whether any latest-keyword occurs as a substring of the lowered query. -/
def has_latest_keyword (q : List Char) : Bool :=
  latest_keywords.any (fun w => containsSub w.toList q)

/-- Python `list(range(a, b))`. -/
def pyRange (a b : Nat) : List Nat :=
  List.range' a (b - a)

/-- `bot/message_handler.py` `MessageHandler.determine_seasons_to_request`
(lines 274-296): an explicit season mention in the query wins; otherwise a
latest-keyword yields the last four seasons only when the show has at least
four; otherwise a show with at least four seasons defaults to the last four;
otherwise `None` (all seasons). -/
def determine_seasons_to_request (total_seasons : Nat) (query : String) :
    Option (List Nat) :=
  let q := pyLowerChars query
  match search_season q with
  | some (start_season, end_opt) =>
    let end_season := end_opt.getD start_season
    some (pyRange start_season (end_season + 1))
  | none =>
    if has_latest_keyword q ∧ 4 ≤ total_seasons then
      some (pyRange (max 1 (total_seasons - 3)) (total_seasons + 1))
    else if 4 ≤ total_seasons then
      some (pyRange (max 1 (total_seasons - 3)) (total_seasons + 1))
    else none

/-- An inbound Signal event, `bot/signal_client.py` `SignalMessage` as the
handler reads it. -/
structure SignalMessage where
  sender : String
  text : String
  is_group_message : Bool := false
  group_id : String := ""
deriving DecidableEq, Repr

/-- The standard command verbs, keys of `MessageHandler.commands`. -/
def standard_command_names : List String :=
  ["help", "request", "status", "settings", "search", "myrequest",
   "myrequests", "cancel", "creategroup"]

/-- The admin-only command verbs, keys of `MessageHandler.admin_commands`. -/
def admin_command_names : List String :=
  ["adduser", "removeuser", "listusers", "approve", "decline", "broadcast",
   "stats"]

/-- Python `str.split()` (no argument): whitespace-run separated words,
leading and trailing whitespace ignored. -/
def pySplitAux : List Char → List Char → List (List Char)
  | [], acc => if acc.isEmpty then [] else [acc.reverse]
  | c :: rest, acc =>
    if isPySpace c then
      if acc.isEmpty then pySplitAux rest []
      else acc.reverse :: pySplitAux rest []
    else pySplitAux rest (c :: acc)

/-- Words of a string, Python `text.strip().split()`. -/
def pySplit (text : String) : List (List Char) :=
  pySplitAux text.toList []

/-- `bot/message_handler.py` `MessageHandler.parse_command` (lines 89-98):
first word lower-cased with all leading slashes stripped is the verb, the
remaining words are the arguments. -/
def parse_command (text : String) : String × List String :=
  match pySplit text with
  | [] => ("", [])
  | w :: args =>
    (String.mk (List.dropWhile (fun c => c = '/') (w.map Char.toLower)),
     args.map String.mk)

/-- `text.lower().startswith(tuple(self.commands.keys()))` in
`handle_natural_request`. -/
def text_lower_startswith_command (text : String) : Bool :=
  standard_command_names.any
    (fun c => (stripPrefixChars c.toList (pyLowerChars text)).isSome)

/-- Modelled from the spec: the claim's guard in section 4.2(c), "the first
word collides with a known verb prefix", where the known verbs are the
standard and the admin command names together. -/
def first_word_collides_known_verb (text : String) : Bool :=
  match pySplit text with
  | [] => false
  | w :: _ =>
    (standard_command_names ++ admin_command_names).any
      (fun c => (stripPrefixChars c.toList (w.map Char.toLower)).isSome)

/-- How one inbound message was routed by `handle_message`. -/
inductive RouteResult
  | ignoredEmpty
  | rejectedUnknownSender
  | maintenanceNotice
  | standardCommand (verb : String)
  | adminCommand (verb : String)
  | permissionDenied (verb : String)
  | unknownCommandNotice
  | freeFormRequest (text : String)
deriving DecidableEq, Repr

/-- The known-users table and maintenance flag the handler consults. -/
structure BotEnv where
  users : List UserRec
  maintenance_mode : Bool := false
deriving DecidableEq, Repr

/-- `db/crud.py` `UserCRUD.get_user_by_phone`: first user row with the
sender's phone number. -/
def get_user_by_phone (env : BotEnv) (phone : String) : Option UserRec :=
  env.users.find? (fun u => u.phone_number == phone)

/-- `send_response` target selection (`bot/message_handler.py` lines 100-110):
group replies go to the group id, otherwise to the recipient. -/
def send_response_target (msg : SignalMessage) (recipient : String) : String :=
  if msg.is_group_message then msg.group_id else recipient

/-- Fixed reply to an unknown sender (`handle_message` line 60). -/
def unauthorized_text : String :=
  "❌ You are not authorized to use this bot. Please contact an administrator."

/-- Fixed maintenance-mode reply (`handle_message` line 68). -/
def maintenance_text : String :=
  "🔧 The bot is currently in maintenance mode. Please try again later."

/-- Fixed permission-denied reply (`handle_message` line 80). -/
def permission_denied_text : String :=
  "❌ You don't have permission to use this command."

/-- Fixed unknown-command reply (`handle_natural_request` line 185). -/
def unknown_command_text : String :=
  "❓ Unknown command. Type `help` for available commands."

/-- Observable outcome of handling one inbound message: the outbound sends,
the count of catalog search calls, the request rows created, and where the
router dispatched. -/
structure MessageOutcome where
  sent_messages : List (String × String)
  catalog_search_calls : Nat
  requests_created : List MediaRequest
  info_logs : Nat
  route : RouteResult
deriving DecidableEq, Repr

/-- `bot/message_handler.py` `MessageHandler.handle_message` (lines 40-87),
with the command handlers abstracted into a `dispatch` argument (verb,
arguments, route) so the pre-dispatch behavior is exact: empty text is
dropped; every non-empty message is logged once; an unknown sender gets the
fixed rejection and nothing else runs; maintenance mode blocks non-admins;
then the verb is matched against the standard and admin tables, and
otherwise `handle_natural_request` (lines 181-189) either replies with the
unknown-command notice (leading slash, or the lowered text starting with a
standard verb) or hands the whole original text to the free-form path. -/
def handle_message_with
    (dispatch : UserRec → String → List String → RouteResult → MessageOutcome)
    (env : BotEnv) (msg : SignalMessage) : MessageOutcome :=
  if msg.text = "" then ⟨[], 0, [], 0, RouteResult.ignoredEmpty⟩
  else
    match get_user_by_phone env msg.sender with
    | none =>
      ⟨[(send_response_target msg msg.sender, unauthorized_text)], 0, [], 1,
       RouteResult.rejectedUnknownSender⟩
    | some user =>
      if env.maintenance_mode && !user.is_admin then
        ⟨[(send_response_target msg msg.sender, maintenance_text)], 0, [], 1,
         RouteResult.maintenanceNotice⟩
      else
        let (command, args) := parse_command msg.text
        if standard_command_names.contains command then
          dispatch user command args (RouteResult.standardCommand command)
        else if admin_command_names.contains command then
          if user.is_admin then
            dispatch user command args (RouteResult.adminCommand command)
          else
            ⟨[(send_response_target msg msg.sender, permission_denied_text)],
             0, [], 1, RouteResult.permissionDenied command⟩
        else
          if msg.text.toList.head? = some '/' ||
              text_lower_startswith_command msg.text then
            ⟨[(send_response_target msg msg.sender, unknown_command_text)],
             0, [], 1, RouteResult.unknownCommandNotice⟩
          else
            dispatch user "" [] (RouteResult.freeFormRequest msg.text)

/-- Routing decision of `handle_message`, with handlers reduced to their
route tag. -/
def handle_message_route (env : BotEnv) (msg : SignalMessage) : RouteResult :=
  (handle_message_with (fun _ _ _ r => ⟨[], 0, [], 1, r⟩) env msg).route

/-- Parsed search-result metadata, `api/overseerr.py` `parse_media_info`. -/
structure MediaInfo where
  tmdb_id : Nat
  title : String
  year : Option Nat := none
  media_type : MediaType
  seasons : Nat := 0
deriving DecidableEq, Repr

/-- One request flow's view of the Overseerr collaborator: the parsed search
results for the query, whether the best match is already available, and the
submission outcome. -/
structure OverseerrOracle where
  search_results : List MediaInfo
  is_available : Bool := false
  submit_response : SubmitResponse := SubmitResponse.success none
deriving DecidableEq, Repr

/-- Year suffix `f" ({year})"`. -/
def year_text (year : Option Nat) : String :=
  match year with
  | some y => " (" ++ toString y ++ ")"
  | none => ""

/-- `bot/message_handler.py` `format_request_confirmation` (lines 298-328);
Python `if seasons` treats `None` and `[]` alike, and `seasons[0]` /
`seasons[-1]` are the head and last of a non-empty list. -/
def format_request_confirmation (mi : MediaInfo) (seasons : Option (List Nat))
    (verbosity : VerbosityLevel) : String :=
  let season_pair :=
    match seasons with
    | some (s :: rest) => some (s, (s :: rest).getLast (by simp))
    | _ => none
  match verbosity with
  | VerbosityLevel.casual =>
    match mi.media_type with
    | MediaType.movie => "👍 Gotcha! Requesting '" ++ mi.title ++ "' for ya."
    | MediaType.tv =>
      let season_text :=
        match season_pair with
        | some (a, b) => " seasons " ++ toString a ++ "-" ++ toString b
        | none => ""
      "👍 Gotcha! Requesting '" ++ mi.title ++ "'" ++ season_text ++ " for ya."
  | VerbosityLevel.simple =>
    match mi.media_type with
    | MediaType.movie =>
      "✅ Requested: " ++ mi.title ++ year_text mi.year ++
        "\n⏱️ I'll check back in 2 minutes!"
    | MediaType.tv =>
      let season_text :=
        match season_pair with
        | some (a, b) => " (Seasons " ++ toString a ++ "-" ++ toString b ++ ")"
        | none => " (All seasons)"
      "✅ Requested: " ++ mi.title ++ year_text mi.year ++ season_text ++
        "\n⏱️ I'll check back in 2 minutes!"
  | VerbosityLevel.verbose =>
    let type_line :=
      match mi.media_type with
      | MediaType.movie => "Movie"
      | MediaType.tv => "Tv"
    let seasons_line :=
      match mi.media_type, season_pair with
      | MediaType.tv, some (a, b) =>
        "📅 **Seasons:** " ++ toString a ++ "-" ++ toString b ++ "\n"
      | _, _ => ""
    "✅ **Request Submitted Successfully**\n\n📺 **Title:** " ++ mi.title ++
      year_text mi.year ++ "\n🎬 **Type:** " ++ type_line ++ "\n" ++
      seasons_line ++
      "⏱️ **Status Check:** I'll update you in 2 minutes\n🔄 **Current Status:** Processing request..."

/-- `bot/message_handler.py` `MessageHandler.process_media_request`
(lines 191-272): quota gate, searching notice, catalog search, no-results
notice, availability short-circuit, season derivation for TV, creation of a
pending row, submission, and either the approved update + confirmation +
one-shot check, or the failed update + failure notice.  `new_request_id` is
the row id the store assigns; `send_to` is the reply target computed by
`send_response`. -/
def process_media_request (rows : List StoredRequest) (now : Nat) (u : UserRec)
    (query : String) (oracle : OverseerrOracle) (new_request_id : Nat)
    (send_to : String) : MessageOutcome :=
  if can_make_request rows u now = false then
    ⟨[(send_to,
       "❌ You've reached your daily request limit (" ++
         toString u.daily_request_limit ++ "). Try again tomorrow!")],
     0, [], 0, RouteResult.freeFormRequest query⟩
  else
    let searching := (send_to, "🔍 Searching for '" ++ query ++ "'...")
    match oracle.search_results with
    | [] =>
      ⟨[searching,
        (send_to,
         "❌ No results found for '" ++ query ++ "'. Try a different search term.")],
       1, [], 0, RouteResult.freeFormRequest query⟩
    | best :: _ =>
      if oracle.is_available then
        ⟨[searching,
          (send_to, "✅ '" ++ best.title ++ "' is already available!")],
         1, [], 0, RouteResult.freeFormRequest query⟩
      else
        let seasons_to_request :=
          match best.media_type with
          | MediaType.tv => determine_seasons_to_request best.seasons query
          | MediaType.movie => none
        let db_request :=
          create_request new_request_id u.id best.media_type best.tmdb_id
            best.title best.year seasons_to_request now
        let submit :=
          match best.media_type with
          | MediaType.movie => request_movie best.tmdb_id oracle.submit_response
          | MediaType.tv => request_tv_show best.tmdb_id oracle.submit_response
        match submit with
        | (true, overseerr_id, _) =>
          let updated :=
            update_request_status db_request RequestStatus.approved
              overseerr_id none now
          ⟨[searching,
            (send_to,
             format_request_confirmation best seasons_to_request
               u.verbosity_level)],
           1, [updated], 0, RouteResult.freeFormRequest query⟩
        | (false, _, error) =>
          let updated :=
            update_request_status db_request RequestStatus.failed none error now
          ⟨[searching,
            (send_to,
             "❌ Failed to request '" ++ best.title ++ "': " ++ error.getD "")],
           1, [updated], 0, RouteResult.freeFormRequest query⟩

/-! Helper lemmas. -/

theorem update_request_status_status (r : MediaRequest) (s : RequestStatus)
    (o : Option Nat) (e : Option String) (t : Nat) :
    (update_request_status r s o e t).status = s := rfl

theorem update_request_status_completed_at (r : MediaRequest) (s : RequestStatus)
    (o : Option Nat) (e : Option String) (t : Nat) :
    (update_request_status r s o e t).completed_at =
      if s = RequestStatus.completed then some t else r.completed_at := rfl

theorem update_request_status_error (r : MediaRequest) (s : RequestStatus)
    (o : Option Nat) (t : Nat) :
    (update_request_status r s o none t).error_message = r.error_message := rfl

theorem terminal_not_pending_query (s : RequestStatus)
    (h : is_terminal s = true) : in_pending_query s = false := by
  cases s <;> revert h <;> decide

theorem check_sweep_request_cases (tm now : Nat) (r : MediaRequest)
    (resp : Option Int) (user : Option UserRec) :
    (check_request_statuses_one tm now r resp user).request = r ∨
    ∃ code, resp = some code ∧ map_overseerr_status code ≠ r.status ∧
      (check_request_statuses_one tm now r resp user).request =
        update_request_status r (map_overseerr_status code) none none now := by
  unfold check_request_statuses_one
  by_cases hp : in_pending_query r.status = false
  · simp [hp]
  · by_cases hg : r.status = RequestStatus.pending ∧ now - r.created_at < tm
    · simp [hp, hg]
    · cases hoid : r.overseerr_request_id with
      | none => simp [hp, hg, hoid]
      | some oid =>
        by_cases h0 : oid = 0
        · simp [hp, hg, hoid, h0]
        · cases hresp : resp with
          | none => simp [hp, hg, hoid, h0, hresp]
          | some code =>
            by_cases hsame : map_overseerr_status code = r.status
            · exact Or.inl (by simp [hp, hg, hoid, h0, hresp, hsame])
            · exact Or.inr ⟨code, rfl, hsame,
                by simp [hp, hg, hoid, h0, hresp, hsame]⟩

theorem check_single_request_cases (now : Nat) (r : MediaRequest)
    (resp : Option Int) (user : Option UserRec) :
    (check_single_request now r resp user).request = r ∨
    ∃ code, resp = some code ∧ map_overseerr_status code ≠ r.status ∧
      (check_single_request now r resp user).request =
        update_request_status r (map_overseerr_status code) none none now := by
  unfold check_single_request
  cases hoid : r.overseerr_request_id with
  | none => simp [hoid]
  | some oid =>
    by_cases h0 : oid = 0
    · simp [hoid, h0]
    · cases hresp : resp with
      | none => simp [hoid, h0, hresp]
      | some code =>
        by_cases hsame : map_overseerr_status code = r.status
        · exact Or.inl (by simp [hoid, h0, hresp, hsame])
        · exact Or.inr ⟨code, rfl, hsame, by simp [hoid, h0, hresp, hsame]⟩

/-! C10 -/

/-- C10: `map_overseerr_status` is total over all integer coarse status codes
and maps every code outside {1,2,3,4,5} to the local status `pending`. -/
theorem C10_unknown_code_pending (code : Int) (h1 : code ≠ 1) (h2 : code ≠ 2)
    (h3 : code ≠ 3) (h4 : code ≠ 4) (h5 : code ≠ 5) :
    map_overseerr_status code = RequestStatus.pending := by
  simp [map_overseerr_status, h1, h2, h3, h4, h5]

theorem C10_unknown_code_pending_witness :
    map_overseerr_status 99 = RequestStatus.pending :=
  C10_unknown_code_pending 99 (by decide) (by decide) (by decide) (by decide)
    (by decide)

/-! C1 -/

/-- C1 counterexample: a request submitted successfully and polled to
`downloading` is moved back to `pending` by the very next sweep poll when the
external service reports coarse code 1, a transition that is not
forward-reachable in the spec's status graph; so the claim that no
poll/submit sequence produces a backward transition is false. -/
theorem C1_counterexample :
    (run_ops (create_request 1 1 MediaType.movie 0 "" none none 0)
        [LifecycleOp.submitOk 7 0, LifecycleOp.sweepPoll (some 4) 2 10]).status =
      RequestStatus.downloading ∧
    (run_ops (create_request 1 1 MediaType.movie 0 "" none none 0)
        [LifecycleOp.submitOk 7 0, LifecycleOp.sweepPoll (some 4) 2 10,
         LifecycleOp.sweepPoll (some 1) 2 20]).status = RequestStatus.pending ∧
    forward_reachable RequestStatus.downloading RequestStatus.pending = false := by
  decide

/-- C1 amended: a poll overwrites the stored status with the mapped external
status whenever it differs, so backward transitions between non-terminal
states are possible; what does hold is that the recurring sweep never touches
a request already in a terminal state (completed, failed, declined), because
only pending/approved/downloading rows are enumerated. -/
theorem C1_sweep_terminal_preserved (tm now : Nat) (r : MediaRequest)
    (resp : Option Int) (user : Option UserRec)
    (h : is_terminal r.status = true) :
    (check_request_statuses_one tm now r resp user).request = r ∧
    (check_request_statuses_one tm now r resp user).notification_sent = false := by
  have hq := terminal_not_pending_query r.status h
  unfold check_request_statuses_one
  simp [hq]

theorem C1_sweep_terminal_preserved_witness :
    (check_request_statuses_one 2 10
        { id := 1, user_id := 1, overseerr_request_id := some 7,
          media_type := MediaType.movie, status := RequestStatus.completed,
          created_at := 0, updated_at := 0 }
        (some 2) none).request =
      { id := 1, user_id := 1, overseerr_request_id := some 7,
        media_type := MediaType.movie, status := RequestStatus.completed,
        created_at := 0, updated_at := 0 } :=
  (C1_sweep_terminal_preserved 2 10 _ (some 2) none (by decide)).1

/-! C4 -/

/-- C4 counterexample: scheduling one-shot checks for request 1 with due
times 5 then 2 leaves a single pending check due at 2, the time of the
second call, not at the later of the two times (5); so the claim's
latest-due-time-wins reading of the replace semantics is false. -/
theorem C4_counterexample :
    pending_checks_for
        (schedule_request_check (schedule_request_check ⟨[]⟩ 1 5 0) 1 2 0) 1 =
      [(check_request_job_id 1, 2)] ∧
    (2 : Nat) ≠ max (0 + 5) (0 + 2) := by
  decide

theorem filter_map_replace_length (l : List (String × Nat)) (k : String)
    (t : Nat) :
    ((l.map (fun j => if j.1 == k then (k, t) else j)).filter
        (fun j => j.1 == k)).length =
      (l.filter (fun j => j.1 == k)).length := by
  rw [← List.countP_eq_length_filter, ← List.countP_eq_length_filter,
    List.countP_map]
  apply List.countP_congr
  intro a _
  by_cases h : (a.1 == k) = true
  · simp only [Function.comp_apply, if_pos h]
    simp [h]
  · simp only [Function.comp_apply, if_neg h]

theorem filter_map_replace_mem (l : List (String × Nat)) (k : String) (t : Nat) :
    ∀ j ∈ (l.map (fun j => if j.1 == k then (k, t) else j)).filter
        (fun j => j.1 == k), j = (k, t) := by
  intro j hj
  rw [List.mem_filter] at hj
  obtain ⟨hjm, hjk⟩ := hj
  rw [List.mem_map] at hjm
  obtain ⟨a, _, hfa⟩ := hjm
  by_cases h : (a.1 == k) = true
  · rw [if_pos h] at hfa
    exact hfa.symm
  · rw [if_neg h] at hfa
    subst hfa
    exact absurd hjk h

theorem add_job_filter_spec (s : SchedulerState) (k : String) (t : Nat) :
    ((add_job_replace_existing s k t).jobs.filter (fun j => j.1 == k)).length =
      max 1 ((s.jobs.filter (fun j => j.1 == k)).length) ∧
    ∀ j ∈ (add_job_replace_existing s k t).jobs.filter (fun j => j.1 == k),
      j = (k, t) := by
  unfold add_job_replace_existing
  by_cases hany : s.jobs.any (fun j => j.1 == k) = true
  · have hpos : 0 < (s.jobs.filter (fun j => j.1 == k)).length := by
      rcases List.any_eq_true.mp hany with ⟨x, hx, hpx⟩
      exact List.length_pos_of_mem (List.mem_filter.mpr ⟨hx, hpx⟩)
    constructor
    · simp only [hany, if_pos]
      rw [filter_map_replace_length]
      omega
    · simp only [hany, if_pos]
      exact filter_map_replace_mem s.jobs k t
  · have hnone : s.jobs.filter (fun j => j.1 == k) = [] := by
      rw [List.filter_eq_nil_iff]
      intro a ha hpa
      exact hany (List.any_eq_true.mpr ⟨a, ha, hpa⟩)
    constructor
    · simp [hany, List.filter_append, hnone]
    · intro j hj
      simp [hany, List.filter_append, hnone] at hj
      simp [hj]

/-- C4 amended: scheduling one-shot checks for the same request id twice
(due times t1 then t2) leaves exactly one pending check, and its due time is
t2, the time of the most recent call — `replace_existing` keeps the latest
scheduled job, not the later due time. -/
theorem C4_replace_semantics (s : SchedulerState) (rid d1 n1 d2 n2 : Nat)
    (h : (pending_checks_for s rid).length ≤ 1) :
    (pending_checks_for
        (schedule_request_check (schedule_request_check s rid d1 n1) rid d2 n2)
        rid).length = 1 ∧
    ∀ j ∈ pending_checks_for
        (schedule_request_check (schedule_request_check s rid d1 n1) rid d2 n2)
        rid, j.2 = n2 + d2 := by
  have h1 := add_job_filter_spec s (check_request_job_id rid) (n1 + d1)
  have h2 := add_job_filter_spec
    (add_job_replace_existing s (check_request_job_id rid) (n1 + d1))
    (check_request_job_id rid) (n2 + d2)
  unfold pending_checks_for at h ⊢
  unfold schedule_request_check
  constructor
  · rw [h2.1, h1.1]
    omega
  · intro j hj
    have := h2.2 j hj
    rw [this]

theorem C4_replace_semantics_witness :
    (pending_checks_for
        (schedule_request_check (schedule_request_check ⟨[]⟩ 1 5 0) 1 2 0)
        1).length = 1 :=
  (C4_replace_semantics ⟨[]⟩ 1 5 0 2 0 (by decide)).1

/-! C8 -/

/-- C8: quota check — the daily count is the number of stored requests with
matching owner and creation date (server-time calendar day); a user at or
over the limit cannot request, a user strictly below it can. -/
theorem C8_daily_quota (rows : List StoredRequest) (u : UserRec) (now : Nat) :
    (get_daily_request_count rows u.id now =
      (rows.filter
        (fun r => r.user_id == u.id && dateOf r.created_at == dateOf now)).length) ∧
    (u.daily_request_limit ≤ get_daily_request_count rows u.id now →
      can_make_request rows u now = false) ∧
    (get_daily_request_count rows u.id now < u.daily_request_limit →
      can_make_request rows u now = true) := by
  refine ⟨rfl, ?_, ?_⟩ <;> intro h <;> simp [can_make_request] <;> omega

theorem C8_daily_quota_witness :
    can_make_request [⟨1, 100⟩, ⟨1, 200⟩] ⟨1, "+1", false, true,
        VerbosityLevel.simple, true, 2⟩ 300 = false ∧
    can_make_request [⟨1, 100⟩] ⟨1, "+1", false, true,
        VerbosityLevel.simple, true, 2⟩ 300 = true :=
  ⟨(C8_daily_quota [⟨1, 100⟩, ⟨1, 200⟩] _ 300).2.1 (by decide),
   (C8_daily_quota [⟨1, 100⟩] _ 300).2.2 (by decide)⟩

/-! C9 -/

/-- C9: a one-shot check that sees a changed status notifies the owner even
when auto-notifications is off, while the recurring sweep notifies only when
auto-notifications is on. -/
theorem C9_one_shot_notifies_always (tm now : Nat) (r : MediaRequest)
    (oid : Nat) (code : Int) (u : UserRec)
    (hoid : r.overseerr_request_id = some oid) (h0 : oid ≠ 0)
    (hch : map_overseerr_status code ≠ r.status)
    (hOff : u.auto_notifications = false)
    (hq : in_pending_query r.status = true)
    (hgrace : ¬(r.status = RequestStatus.pending ∧ now - r.created_at < tm)) :
    (check_single_request now r (some code) (some u)).notification_sent = true ∧
    (check_request_statuses_one tm now r (some code) (some u)).notification_sent =
      false ∧
    (check_request_statuses_one tm now r (some code)
        (some { u with auto_notifications := true })).notification_sent = true := by
  refine ⟨?_, ?_, ?_⟩
  · unfold check_single_request
    simp [hoid, h0, hch]
  · unfold check_request_statuses_one
    simp [hq, hgrace, hoid, h0, hch, hOff]
  · unfold check_request_statuses_one
    simp [hq, hgrace, hoid, h0, hch]

theorem C9_one_shot_notifies_always_witness :
    (check_single_request 10
        { id := 1, user_id := 1, overseerr_request_id := some 7,
          media_type := MediaType.movie, status := RequestStatus.downloading,
          created_at := 0, updated_at := 0 }
        (some 5)
        (some { id := 1, phone_number := "+1", auto_notifications := false })).notification_sent =
      true ∧
    (check_request_statuses_one 2 10
        { id := 1, user_id := 1, overseerr_request_id := some 7,
          media_type := MediaType.movie, status := RequestStatus.downloading,
          created_at := 0, updated_at := 0 }
        (some 5)
        (some { id := 1, phone_number := "+1", auto_notifications := false })).notification_sent =
      false :=
  ⟨(C9_one_shot_notifies_always 2 10 _ 7 5 _ rfl (by decide) (by decide) rfl
      (by decide) (by decide)).1,
   (C9_one_shot_notifies_always 2 10 _ 7 5 _ rfl (by decide) (by decide) rfl
      (by decide) (by decide)).2.1⟩

/-! C2 -/

/-- C2 counterexample: a request whose sweep poll maps the external code 3 to
`declined` ends in status declined with no error detail stored, because
`check_request_statuses` passes no error message to
`update_request_status`; so the claimed "error detail is set iff status in
{failed, declined}" fails in the right-to-left direction. -/
theorem C2_counterexample :
    (run_ops (create_request 1 1 MediaType.movie 0 "" none none 0)
        [LifecycleOp.submitOk 7 0, LifecycleOp.sweepPoll (some 3) 2 10]).status =
      RequestStatus.declined ∧
    (run_ops (create_request 1 1 MediaType.movie 0 "" none none 0)
        [LifecycleOp.submitOk 7 0, LifecycleOp.sweepPoll (some 3) 2 10]).error_message =
      none := by
  decide

theorem apply_op_completed_stamp (r : MediaRequest) (op : LifecycleOp)
    (h : r.status = RequestStatus.completed → r.completed_at.isSome = true) :
    (apply_op r op).status = RequestStatus.completed →
      (apply_op r op).completed_at.isSome = true := by
  cases op with
  | submitOk oid now =>
    intro hst
    rw [apply_op, update_request_status_status] at hst
    exact absurd hst (by decide)
  | submitFail e now =>
    intro hst
    rw [apply_op, update_request_status_status] at hst
    exact absurd hst (by decide)
  | sweepPoll resp tm now =>
    intro hst
    rw [apply_op] at hst ⊢
    rcases check_sweep_request_cases tm now r resp none with hcase |
      ⟨code, _, _, hcase⟩
    · rw [hcase] at hst ⊢
      exact h hst
    · rw [hcase] at hst ⊢
      rw [update_request_status_status] at hst
      rw [update_request_status_completed_at, hst]
      simp
  | singlePoll resp now =>
    intro hst
    rw [apply_op] at hst ⊢
    rcases check_single_request_cases now r resp none with hcase |
      ⟨code, _, _, hcase⟩
    · rw [hcase] at hst ⊢
      exact h hst
    · rw [hcase] at hst ⊢
      rw [update_request_status_status] at hst
      rw [update_request_status_completed_at, hst]
      simp

theorem apply_op_error_none (r : MediaRequest) (op : LifecycleOp)
    (hop : is_submit_fail op = false) (h : r.error_message = none) :
    (apply_op r op).error_message = none := by
  cases op with
  | submitOk oid now =>
    rw [apply_op, update_request_status_error]
    exact h
  | submitFail e now => simp [is_submit_fail] at hop
  | sweepPoll resp tm now =>
    rw [apply_op]
    rcases check_sweep_request_cases tm now r resp none with hcase |
      ⟨code, _, _, hcase⟩
    · rw [hcase]; exact h
    · rw [hcase, update_request_status_error]; exact h
  | singlePoll resp now =>
    rw [apply_op]
    rcases check_single_request_cases now r resp none with hcase |
      ⟨code, _, _, hcase⟩
    · rw [hcase]; exact h
    · rw [hcase, update_request_status_error]; exact h

theorem run_ops_completed_stamp (ops : List LifecycleOp) (r : MediaRequest)
    (h : r.status = RequestStatus.completed → r.completed_at.isSome = true) :
    (run_ops r ops).status = RequestStatus.completed →
      (run_ops r ops).completed_at.isSome = true := by
  induction ops generalizing r with
  | nil => exact h
  | cons op rest ih => exact ih (apply_op r op) (apply_op_completed_stamp r op h)

theorem run_ops_error_none (ops : List LifecycleOp) (r : MediaRequest)
    (h : r.error_message = none)
    (hops : ∀ op ∈ ops, is_submit_fail op = false) :
    (run_ops r ops).error_message = none := by
  induction ops generalizing r with
  | nil => exact h
  | cons op rest ih =>
    exact ih (apply_op r op)
      (apply_op_error_none r op (hops op (by simp)) h)
      (fun o ho => hops o (by simp [ho]))

/-- C2 amended: over every sequence of the program's submit/poll operations
from a freshly created request, the surviving directions are: a completed
status implies the completed timestamp is set, and a stored error detail
implies some failed submission occurred in the sequence.  The converses are
false: a declined (or failed) status reached by polling carries no error
detail. -/
theorem C2_status_timestamp_invariant (rid uid mid t : Nat) (mt : MediaType)
    (title : String) (year : Option Nat) (seasons : Option (List Nat))
    (ops : List LifecycleOp) :
    ((run_ops (create_request rid uid mt mid title year seasons t) ops).status =
        RequestStatus.completed →
      (run_ops (create_request rid uid mt mid title year seasons t)
          ops).completed_at.isSome = true) ∧
    ((run_ops (create_request rid uid mt mid title year seasons t)
          ops).error_message.isSome = true →
      ∃ op ∈ ops, is_submit_fail op = true) := by
  constructor
  · exact run_ops_completed_stamp ops _ (by intro hst; simp [create_request] at hst)
  · intro herr
    by_contra hno
    push_neg at hno
    have hall : ∀ op ∈ ops, is_submit_fail op = false := by
      intro op hop
      exact Bool.eq_false_iff.mpr (hno op hop)
    have := run_ops_error_none ops
      (create_request rid uid mt mid title year seasons t) rfl hall
    rw [this] at herr
    simp at herr

theorem C2_status_timestamp_invariant_witness :
    (run_ops (create_request 1 1 MediaType.movie 0 "" none none 0)
        [LifecycleOp.submitOk 7 0,
         LifecycleOp.sweepPoll (some 5) 2 10]).completed_at.isSome = true ∧
    ∃ op ∈ [LifecycleOp.submitFail "boom" 0], is_submit_fail op = true :=
  ⟨(C2_status_timestamp_invariant 1 1 0 0 MediaType.movie "" none none
      [LifecycleOp.submitOk 7 0, LifecycleOp.sweepPoll (some 5) 2 10]).1
      (by decide),
   (C2_status_timestamp_invariant 1 1 0 0 MediaType.movie "" none none
      [LifecycleOp.submitFail "boom" 0]).2 (by decide)⟩

/-! C3 -/

/-- C3 counterexample: for a show with 3 seasons and the query "request Show
latest", the claim says the latest-keyword yields the last seasons, i.e.
[1, 2, 3]; the code's keyword branch fires only when the show has at least 4
seasons, so it falls through and returns `none` (season list left empty). -/
theorem C3_counterexample :
    determine_seasons_to_request 3 "request Show latest" = none ∧
    determine_seasons_to_request 3 "request Show latest" ≠ some [1, 2, 3] ∧
    has_latest_keyword (pyLowerChars "request Show latest") = true := by
  decide

/-- C3 amended: an explicit "season N" / "seasons N-M" mention yields
[N..M]; otherwise a show with at least 4 seasons yields its last 4 whether
or not a latest/recent/new/current keyword is present; otherwise (fewer
than 4 seasons, with or without a keyword) the season list is left empty
meaning all seasons — the latest-keyword never selects fewer than 4
seasons. -/
theorem C3_season_derivation (total : Nat) (query : String) :
    (∀ n e, search_season (pyLowerChars query) = some (n, e) →
      determine_seasons_to_request total query =
        some (pyRange n ((e.getD n) + 1))) ∧
    (search_season (pyLowerChars query) = none → 4 ≤ total →
      determine_seasons_to_request total query =
        some (pyRange (max 1 (total - 3)) (total + 1))) ∧
    (search_season (pyLowerChars query) = none → total < 4 →
      determine_seasons_to_request total query = none) := by
  refine ⟨?_, ?_, ?_⟩
  · intro n e h
    simp only [determine_seasons_to_request]
    rw [h]
  · intro h h4
    simp only [determine_seasons_to_request]
    rw [h]
    by_cases hk : has_latest_keyword (pyLowerChars query) = true
    · simp [hk, h4]
    · simp [hk, h4]
  · intro h h4
    simp only [determine_seasons_to_request]
    rw [h]
    have hn : ¬(4 ≤ total) := by omega
    simp [hn]

theorem C3_season_derivation_witness :
    determine_seasons_to_request 5 "request Show seasons 2-4" = some [2, 3, 4] ∧
    determine_seasons_to_request 6 "request Show latest" = some [3, 4, 5, 6] ∧
    determine_seasons_to_request 3 "request Show latest" = none :=
  ⟨((C3_season_derivation 5 "request Show seasons 2-4").1 2 (some 4)
      (by decide)).trans (by decide),
   ((C3_season_derivation 6 "request Show latest").2.1 (by decide)
      (by decide)).trans (by decide),
   (C3_season_derivation 3 "request Show latest").2.2 (by decide) (by decide)⟩

/-! C5 -/

/-- C5: an inbound message whose sender resolves to no known user gets
exactly one fixed rejection reply, zero request rows, zero catalog search
calls, and one info log — whatever the command handlers would do (`dispatch`
is universally quantified, so no further processing can influence the
outcome). -/
theorem C5_unknown_sender_rejected
    (dispatch : UserRec → String → List String → RouteResult → MessageOutcome)
    (env : BotEnv) (msg : SignalMessage)
    (h1 : get_user_by_phone env msg.sender = none) (h2 : msg.text ≠ "") :
    handle_message_with dispatch env msg =
      ⟨[(send_response_target msg msg.sender, unauthorized_text)], 0, [], 1,
       RouteResult.rejectedUnknownSender⟩ := by
  unfold handle_message_with
  rw [if_neg h2, h1]

theorem C5_unknown_sender_rejected_witness :
    handle_message_with (fun _ _ _ r => ⟨[], 0, [], 1, r⟩) ⟨[], false⟩
        ⟨"+15550001", "request Inception", false, ""⟩ =
      ⟨[("+15550001", unauthorized_text)], 0, [], 1,
       RouteResult.rejectedUnknownSender⟩ :=
  C5_unknown_sender_rejected (fun _ _ _ r => ⟨[], 0, [], 1, r⟩) ⟨[], false⟩
    ⟨"+15550001", "request Inception", false, ""⟩ rfl (by decide)

/-! C6 -/

/-- C6 counterexample: a known standard user sends "addusers +15550002";
the first token matches no standard and no admin verb, and it collides with
the admin verb "adduser" as a prefix, yet the router starts the free-form
request path instead of replying with the unknown-command notice — the
code's guard checks only the standard command names. -/
theorem C6_counterexample :
    standard_command_names.contains (parse_command "addusers +15550002").1 =
      false ∧
    admin_command_names.contains (parse_command "addusers +15550002").1 =
      false ∧
    first_word_collides_known_verb "addusers +15550002" = true ∧
    handle_message_route
        ⟨[⟨1, "+15550001", false, true, VerbosityLevel.simple, true, 10⟩],
         false⟩
        ⟨"+15550001", "addusers +15550002", false, ""⟩ =
      RouteResult.freeFormRequest "addusers +15550002" := by
  decide

/-- C6 amended: for a known user's message whose first token matches no
standard and no admin verb, the router replies with the unknown-command
notice exactly when the text begins with a slash or the lower-cased text
begins with one of the standard verb names; otherwise the entire original
text is handed to the free-form media-request path.  Admin verb prefixes
(and collisions hidden behind leading whitespace) do not trigger the
guard. -/
theorem C6_natural_request_guard (env : BotEnv) (msg : SignalMessage)
    (user : UserRec) (hu : get_user_by_phone env msg.sender = some user)
    (hm : env.maintenance_mode = false ∨ user.is_admin = true)
    (ht : msg.text ≠ "")
    (hs : standard_command_names.contains (parse_command msg.text).1 = false)
    (ha : admin_command_names.contains (parse_command msg.text).1 = false) :
    (msg.text.toList.head? = some '/' ∨
        text_lower_startswith_command msg.text = true →
      handle_message_route env msg = RouteResult.unknownCommandNotice) ∧
    (msg.text.toList.head? ≠ some '/' →
      text_lower_startswith_command msg.text = false →
      handle_message_route env msg = RouteResult.freeFormRequest msg.text) := by
  have hmb : (env.maintenance_mode && !user.is_admin) = false := by
    rcases hm with hm | hm <;> simp [hm]
  constructor
  · intro hg
    unfold handle_message_route handle_message_with
    rw [if_neg ht, hu]
    simp only [hmb, Bool.false_eq_true, if_false]
    rw [hs, ha]
    simp only [Bool.false_eq_true, if_false]
    have hc : (decide (msg.text.toList.head? = some '/') ||
        text_lower_startswith_command msg.text) = true := by
      rcases hg with hg | hg
      · rw [hg]
        simp
      · rw [hg]
        simp
    rw [if_pos hc]
  · intro hg1 hg2
    unfold handle_message_route handle_message_with
    rw [if_neg ht, hu]
    simp only [hmb, Bool.false_eq_true, if_false]
    rw [hs, ha]
    simp only [Bool.false_eq_true, if_false]
    have hc : ¬((decide (msg.text.toList.head? = some '/') ||
        text_lower_startswith_command msg.text) = true) := by
      rw [hg2]
      simp only [Bool.or_false, decide_eq_true_eq]
      exact hg1
    rw [if_neg hc]

theorem C6_natural_request_guard_witness :
    handle_message_route
        ⟨[⟨1, "+15550001", false, true, VerbosityLevel.simple, true, 10⟩],
         false⟩
        ⟨"+15550001", "/frobnicate", false, ""⟩ =
      RouteResult.unknownCommandNotice ∧
    handle_message_route
        ⟨[⟨1, "+15550001", false, true, VerbosityLevel.simple, true, 10⟩],
         false⟩
        ⟨"+15550001", "Inception", false, ""⟩ =
      RouteResult.freeFormRequest "Inception" :=
  ⟨(C6_natural_request_guard
      ⟨[⟨1, "+15550001", false, true, VerbosityLevel.simple, true, 10⟩], false⟩
      ⟨"+15550001", "/frobnicate", false, ""⟩
      ⟨1, "+15550001", false, true, VerbosityLevel.simple, true, 10⟩
      (by decide) (Or.inl rfl) (by decide) (by decide) (by decide)).1
      (Or.inl (by decide)),
   (C6_natural_request_guard
      ⟨[⟨1, "+15550001", false, true, VerbosityLevel.simple, true, 10⟩], false⟩
      ⟨"+15550001", "Inception", false, ""⟩
      ⟨1, "+15550001", false, true, VerbosityLevel.simple, true, 10⟩
      (by decide) (Or.inl rfl) (by decide) (by decide) (by decide)).2
      (by decide) (by decide)⟩

/-! C7 -/

theorem data_append (a b : String) : (a ++ b).data = a.data ++ b.data := rfl

theorem head_of_append {α : Type} (l1 l2 : List α) (c : α)
    (h : l1.head? = some c) : (l1 ++ l2).head? = some c := by
  cases l1
  · simp at h
  · simpa using h

theorem string_append_head (a b : String) (c : Char)
    (h : a.data.head? = some c) : (a ++ b).data.head? = some c := by
  rw [data_append]
  exact head_of_append _ _ _ h

theorem generic_movie_http_error_ne_conflict (s : String) :
    "Failed to request movie: HTTP error " ++ s ≠
      "This movie has already been requested" := by
  intro h
  have h1 : ("Failed to request movie: HTTP error " ++ s).data.head? =
      some 'F' := string_append_head _ _ _ (by decide)
  rw [h] at h1
  exact absurd h1 (by decide)

theorem generic_movie_other_error_ne_conflict (t d : String) :
    "Failed to request movie " ++ t ++ ": " ++ d ≠
      "This movie has already been requested" := by
  intro h
  have h1 : ("Failed to request movie " ++ t ++ ": " ++ d).data.head? =
      some 'F' :=
    string_append_head _ _ _
      (string_append_head _ _ _ (string_append_head _ _ _ (by decide)))
  rw [h] at h1
  exact absurd h1 (by decide)

theorem generic_tv_http_error_ne_conflict (s : String) :
    "Failed to request TV show: HTTP error " ++ s ≠
      "This TV show has already been requested" := by
  intro h
  have h1 : ("Failed to request TV show: HTTP error " ++ s).data.head? =
      some 'F' := string_append_head _ _ _ (by decide)
  rw [h] at h1
  exact absurd h1 (by decide)

theorem generic_tv_other_error_ne_conflict (t d : String) :
    "Failed to request TV show " ++ t ++ ": " ++ d ≠
      "This TV show has already been requested" := by
  intro h
  have h1 : ("Failed to request TV show " ++ t ++ ": " ++ d).data.head? =
      some 'F' :=
    string_append_head _ _ _
      (string_append_head _ _ _ (string_append_head _ _ _ (by decide)))
  rw [h] at h1
  exact absurd h1 (by decide)

theorem update_request_status_error_some (r : MediaRequest) (s : RequestStatus)
    (o : Option Nat) (t : Nat) (m : String) (hm : m ≠ "") :
    (update_request_status r s o (some m) t).error_message = some m := by
  simp [update_request_status, hm]

/-- C7: for every submission — movie or TV — that the fulfillment service
answers with a conflict (HTTP 409), the submit operation returns that media
type's distinguished already-requested error, provably different from every
generic failure text of the same operation; the user receives the failure
reply carrying that message, and the single created request row is recorded
in `failed` status with exactly that error detail. -/
theorem C7_conflict_distinguished (rows : List StoredRequest) (now : Nat)
    (u : UserRec) (query send_to : String) (new_id : Nat)
    (oracle : OverseerrOracle) (best : MediaInfo) (rest : List MediaInfo)
    (hq : can_make_request rows u now = true)
    (hres : oracle.search_results = best :: rest)
    (hav : oracle.is_available = false)
    (hconf : oracle.submit_response = SubmitResponse.httpError 409) :
    (match best.media_type with
     | MediaType.movie => request_movie best.tmdb_id oracle.submit_response
     | MediaType.tv => request_tv_show best.tmdb_id oracle.submit_response) =
      (false, none, some (conflict_message best.media_type)) ∧
    (process_media_request rows now u query oracle new_id
        send_to).sent_messages =
      [(send_to, "🔍 Searching for '" ++ query ++ "'..."),
       (send_to, "❌ Failed to request '" ++ best.title ++ "': " ++
         conflict_message best.media_type)] ∧
    (∃ req,
      (process_media_request rows now u query oracle new_id
          send_to).requests_created = [req] ∧
      req.status = RequestStatus.failed ∧
      req.error_message = some (conflict_message best.media_type)) ∧
    (∀ code : Nat, code ≠ 409 →
      (request_movie best.tmdb_id (SubmitResponse.httpError code)).2.2 ≠
        some (conflict_message MediaType.movie) ∧
      (request_tv_show best.tmdb_id (SubmitResponse.httpError code)).2.2 ≠
        some (conflict_message MediaType.tv)) ∧
    (∀ d : String,
      (request_movie best.tmdb_id (SubmitResponse.otherError d)).2.2 ≠
        some (conflict_message MediaType.movie) ∧
      (request_tv_show best.tmdb_id (SubmitResponse.otherError d)).2.2 ≠
        some (conflict_message MediaType.tv)) := by
  refine ⟨?_, ?_, ?_, ?_, ?_⟩
  · cases hmt : best.media_type
    · rw [hconf]
      simp [request_movie, conflict_message]
    · rw [hconf]
      simp [request_tv_show, conflict_message]
  · cases hmt : best.media_type
    · simp [process_media_request, hq, hres, hav, hmt, hconf, request_movie,
        conflict_message]
    · simp [process_media_request, hq, hres, hav, hmt, hconf, request_tv_show,
        conflict_message]
  · cases hmt : best.media_type
    · refine ⟨update_request_status
        (create_request new_id u.id MediaType.movie best.tmdb_id best.title
          best.year none now)
        RequestStatus.failed none
        (some "This movie has already been requested") now, ?_, ?_, ?_⟩
      · simp [process_media_request, hq, hres, hav, hmt, hconf, request_movie,
          conflict_message]
      · rw [update_request_status_status]
      · rw [update_request_status_error_some _ _ _ _ _ (by decide)]
        simp [conflict_message, hmt]
    · refine ⟨update_request_status
        (create_request new_id u.id MediaType.tv best.tmdb_id best.title
          best.year (determine_seasons_to_request best.seasons query) now)
        RequestStatus.failed none
        (some "This TV show has already been requested") now, ?_, ?_, ?_⟩
      · simp [process_media_request, hq, hres, hav, hmt, hconf,
          request_tv_show, conflict_message]
      · rw [update_request_status_status]
      · rw [update_request_status_error_some _ _ _ _ _ (by decide)]
        simp [conflict_message, hmt]
  · intro code hne
    constructor
    · simp only [request_movie, if_neg hne, ne_eq, Option.some.injEq,
        conflict_message]
      exact generic_movie_http_error_ne_conflict (toString code)
    · simp only [request_tv_show, if_neg hne, ne_eq, Option.some.injEq,
        conflict_message]
      exact generic_tv_http_error_ne_conflict (toString code)
  · intro d
    constructor
    · simp only [request_movie, ne_eq, Option.some.injEq, conflict_message]
      exact generic_movie_other_error_ne_conflict (toString best.tmdb_id) d
    · simp only [request_tv_show, ne_eq, Option.some.injEq, conflict_message]
      exact generic_tv_other_error_ne_conflict (toString best.tmdb_id) d

theorem C7_conflict_distinguished_witness :
    request_movie 27205 (SubmitResponse.httpError 409) =
      (false, none, some "This movie has already been requested") ∧
    (process_media_request [] 100 ⟨1, "+15550001", false, true,
        VerbosityLevel.simple, true, 10⟩ "Inception"
        ⟨[⟨27205, "Inception", some 2010, MediaType.movie, 0⟩], false,
         SubmitResponse.httpError 409⟩ 1 "+15550001").sent_messages =
      [("+15550001", "🔍 Searching for '" ++ "Inception" ++ "'..."),
       ("+15550001", "❌ Failed to request '" ++ "Inception" ++ "': " ++
         "This movie has already been requested")] ∧
    request_tv_show 1396 (SubmitResponse.httpError 409) =
      (false, none, some "This TV show has already been requested") ∧
    (process_media_request [] 100 ⟨1, "+15550001", false, true,
        VerbosityLevel.simple, true, 10⟩ "Breaking Bad"
        ⟨[⟨1396, "Breaking Bad", some 2008, MediaType.tv, 5⟩], false,
         SubmitResponse.httpError 409⟩ 1 "+15550001").sent_messages =
      [("+15550001", "🔍 Searching for '" ++ "Breaking Bad" ++ "'..."),
       ("+15550001", "❌ Failed to request '" ++ "Breaking Bad" ++ "': " ++
         "This TV show has already been requested")] :=
  ⟨(C7_conflict_distinguished [] 100
      ⟨1, "+15550001", false, true, VerbosityLevel.simple, true, 10⟩
      "Inception" "+15550001" 1
      ⟨[⟨27205, "Inception", some 2010, MediaType.movie, 0⟩], false,
       SubmitResponse.httpError 409⟩
      ⟨27205, "Inception", some 2010, MediaType.movie, 0⟩ [] (by decide) rfl
      rfl rfl).1,
   (C7_conflict_distinguished [] 100
      ⟨1, "+15550001", false, true, VerbosityLevel.simple, true, 10⟩
      "Inception" "+15550001" 1
      ⟨[⟨27205, "Inception", some 2010, MediaType.movie, 0⟩], false,
       SubmitResponse.httpError 409⟩
      ⟨27205, "Inception", some 2010, MediaType.movie, 0⟩ [] (by decide) rfl
      rfl rfl).2.1,
   (C7_conflict_distinguished [] 100
      ⟨1, "+15550001", false, true, VerbosityLevel.simple, true, 10⟩
      "Breaking Bad" "+15550001" 1
      ⟨[⟨1396, "Breaking Bad", some 2008, MediaType.tv, 5⟩], false,
       SubmitResponse.httpError 409⟩
      ⟨1396, "Breaking Bad", some 2008, MediaType.tv, 5⟩ [] (by decide) rfl
      rfl rfl).1,
   (C7_conflict_distinguished [] 100
      ⟨1, "+15550001", false, true, VerbosityLevel.simple, true, 10⟩
      "Breaking Bad" "+15550001" 1
      ⟨[⟨1396, "Breaking Bad", some 2008, MediaType.tv, 5⟩], false,
       SubmitResponse.httpError 409⟩
      ⟨1396, "Breaking Bad", some 2008, MediaType.tv, 5⟩ [] (by decide) rfl
      rfl rfl).2.1⟩

end Signalerr
